import Mathlib

/-!
Verification development for the unison-devstack orchestrator core and its
helper scripts.

The orchestrator HTTP service (event intake, policy evaluation, confirmation
tickets, skill registry, introspection and readiness) is exercised by the
repository only through integration tests and client scripts; the service
implementation itself is not among the source files.  Its behaviour is
therefore modelled from the specification (sections 3 to 7), with each
modelled definition marked as such in its doc comment.

The helper scripts `multimodal_probe.py`, `google_calendar_sync_example.py`,
`e2e_smoke.py` and `register_skills.py` are embedded directly from their
source.
-/

/-- Key/value payload data carried by envelopes and skill results. -/
abbrev Payload := List (String × String)

/-- Modelled from the spec (section 3): the `data_classification` enum of a
`safety_context`; the spec lists `public`, `internal`, `confidential` and
leaves the enum open. -/
inductive Classification where
  | publicC
  | internalC
  | confidential
  | otherC
deriving DecidableEq, Repr

/-- Modelled from the spec (section 3): `safety_context` hints used only by
the policy evaluator. -/
structure SafetyContext where
  data_classification : Classification
  allows_cloud : Bool
deriving DecidableEq, Repr

/-- Modelled from the spec (section 3): one inbound event.  The timestamp is
kept as the raw string; the claims under study do not depend on timestamp
parsing. -/
structure Envelope where
  timestamp : String
  source : String
  intent : String
  payload : Payload
  auth_scope : Option String
  safety_context : Option SafetyContext
deriving DecidableEq, Repr

/-- Modelled from the spec (section 3): effect of a policy rule. -/
inductive Effect where
  | allow
  | deny
  | require_confirmation
deriving DecidableEq, Repr

/-- Modelled from the spec (section 3): one entry of the ordered rule table:
a predicate over envelope fields together with an effect. -/
structure PolicyRule where
  matchPred : Envelope → Bool
  effect : Effect

/-- Modelled from the spec (section 4.2): first matching rule wins; if no
rule matches, the fixed default effect `allow` applies. -/
def evaluate (rules : List PolicyRule) (e : Envelope) : Effect :=
  match rules.find? (fun r => r.matchPred e) with
  | some r => r.effect
  | none => Effect.allow

/-- Modelled from the spec (sections 4.2 and 8): the contractual default
rule gating confidential envelopes behind confirmation. -/
def confidentialRule : PolicyRule :=
  { matchPred := fun e =>
      match e.safety_context with
      | some sc => sc.data_classification = Classification.confidential
      | none => false,
    effect := Effect.require_confirmation }

/-- Modelled from the spec (section 4.2): the default rule table shipped with
the stack (the integration tests call it the default `rules.yaml`). -/
def defaultRules : List PolicyRule := [confidentialRule]

/-- Modelled from the spec (section 3): a ticket state. -/
inductive TicketState where
  | pending
  | redeemed
  | expired
deriving DecidableEq, Repr

/-- Modelled from the spec (section 3): a pending, not-yet-executed
decision bound to the exact envelope that produced it. -/
structure ConfirmationTicket where
  envelope : Envelope
  issued_at : Nat
  expires_at : Nat
  state : TicketState
deriving DecidableEq, Repr

/-- Modelled from the spec (section 4.3): redemption error taxonomy. -/
inductive RedemptionError where
  | notFound
  | expired
  | alreadyRedeemed
deriving DecidableEq, Repr

/-- Error-field names of the redemption errors, following the taxonomy of
spec section 7. -/
def redemptionErrorName : RedemptionError → String
  | RedemptionError.notFound => "TicketNotFound"
  | RedemptionError.expired => "TicketExpired"
  | RedemptionError.alreadyRedeemed => "TicketAlreadyRedeemed"

/-- Result a skill handler returns; the dispatcher normalises it into a
`DispatchResult` (spec section 4.4). -/
structure HandlerResult where
  accepted : Bool
  outputs : Payload
  error : Option String

/-- Modelled from the spec (section 3): a skill handler is an opaque
callable invoked with the envelope. -/
abbrev Handler := Envelope → HandlerResult

/-- The registry is an ordered association list from intent to handler. -/
abbrev Registry := List (String × Handler)

/-- Modelled from the spec (section 3): outcome of executing a skill. -/
structure DispatchResult where
  accepted : Bool
  outputs : Payload
  handled_by : Option String
  error : Option String

/-- Look up the handler bound to an intent. -/
def lookupHandler (reg : Registry) (intent : String) : Option Handler :=
  (reg.find? (fun p => p.1 = intent)).map Prod.snd

/-- Modelled from the spec (section 4.4): dispatch looks up the handler by
intent; if absent it returns `accepted := false` with an `UnknownIntent`
error, otherwise it invokes the handler and records which skill handled the
event. -/
def dispatch (reg : Registry) (e : Envelope) : DispatchResult :=
  match lookupHandler reg e.intent with
  | none =>
      { accepted := false, outputs := [], handled_by := none,
        error := some "UnknownIntent" }
  | some h =>
      let r := h e
      { accepted := r.accepted, outputs := r.outputs,
        handled_by := some e.intent, error := r.error }

/-- The intents whose handler a dispatch result says was invoked: empty when
no handler ran, a singleton otherwise.  Used to instrument the coordinator
with an observable log of handler invocations. -/
def invokedIntents (r : DispatchResult) : List String :=
  match r.handled_by with
  | some i => [i]
  | none => []

/-- Modelled from the spec (section 4.4): registering an intent; an
already-registered intent is replaced deterministically and re-registration
reports success (the observed behaviour tolerates idempotent
re-registration returning success). -/
def registerSkill (reg : Registry) (intent : String) (h : Handler) :
    Registry × Bool :=
  if reg.any (fun p => p.1 = intent) then
    (reg.map (fun p => if p.1 = intent then (p.1, h) else p), true)
  else
    (reg ++ [(intent, h)], true)

/-- Modelled from the spec (section 4.4): the registry listing returned by
GET /skills. -/
def listIntents (reg : Registry) : List String := reg.map Prod.fst

/-- Modelled from the spec (section 3): token generation is an opaque
injective scheme; here tokens are drawn from a counter kept in the core
state, rendered as a non-empty string. -/
def tokenOf (n : Nat) : String := String.mk (List.replicate (n + 1) 't')

/-- The mutable state owned by the orchestration coordinator: skill
registry, ticket table and token counter, plus an observational log of the
intents whose handlers were actually invoked. -/
structure CoreState where
  registry : Registry
  tickets : List (String × ConfirmationTicket)
  counter : Nat
  dispatched : List String

/-- Set the state of every ticket stored under a token. -/
def setTicketState (tickets : List (String × ConfirmationTicket))
    (token : String) (s : TicketState) : List (String × ConfirmationTicket) :=
  tickets.map (fun p => if p.1 = token then (p.1, { p.2 with state := s }) else p)

/-- Modelled from the spec (section 4.3): redemption atomically transitions
`pending` to `redeemed` and returns the bound envelope; it fails with
`NotFound` for an unknown token, `Expired` past `expires_at` (marking the
ticket expired on access) and `AlreadyRedeemed` when the ticket was already
redeemed. -/
def redeem (tickets : List (String × ConfirmationTicket)) (token : String)
    (now : Nat) :
    Except RedemptionError Envelope × List (String × ConfirmationTicket) :=
  match tickets.find? (fun p => p.1 = token) with
  | none => (Except.error RedemptionError.notFound, tickets)
  | some (_, t) =>
      match t.state with
      | TicketState.pending =>
          if t.expires_at < now then
            (Except.error RedemptionError.expired,
             setTicketState tickets token TicketState.expired)
          else
            (Except.ok t.envelope,
             setTicketState tickets token TicketState.redeemed)
      | TicketState.redeemed => (Except.error RedemptionError.alreadyRedeemed, tickets)
      | TicketState.expired => (Except.error RedemptionError.expired, tickets)

/-- Response body of POST /event (spec section 6). -/
structure EventResponse where
  accepted : Bool
  require_confirmation : Bool
  confirmation_token : Option String
  outputs : Payload
  handled_by : Option String
  error : Option String

/-- Response body of POST /event/confirm (spec section 6). -/
structure ConfirmResponse where
  accepted : Bool
  handled_by : Option String
  outputs : Payload
  error : Option String

/-- Modelled from the spec (sections 4.1 and 4.5): the coordinator for
POST /event.  Validation is modelled as the non-empty-intent check (the
claims under study send well-formed timestamps); `allow` dispatches
synchronously, `require_confirmation` parks the envelope behind a fresh
ticket valid for `ttl` time units, `deny` returns a denial with no ticket. -/
def handleEvent (rules : List PolicyRule) (st : CoreState) (e : Envelope)
    (now ttl : Nat) : EventResponse × CoreState :=
  if e.intent = "" then
    ({ accepted := false, require_confirmation := false,
       confirmation_token := none, outputs := [], handled_by := none,
       error := some "ValidationError" }, st)
  else
    match evaluate rules e with
    | Effect.allow =>
        let r := dispatch st.registry e
        ({ accepted := r.accepted, require_confirmation := false,
           confirmation_token := none, outputs := r.outputs,
           handled_by := r.handled_by, error := r.error },
         { st with dispatched := st.dispatched ++ invokedIntents r })
    | Effect.deny =>
        ({ accepted := false, require_confirmation := false,
           confirmation_token := none, outputs := [], handled_by := none,
           error := some "PolicyDenied" }, st)
    | Effect.require_confirmation =>
        let token := tokenOf st.counter
        let t : ConfirmationTicket :=
          { envelope := e, issued_at := now, expires_at := now + ttl,
            state := TicketState.pending }
        ({ accepted := false, require_confirmation := true,
           confirmation_token := some token, outputs := [],
           handled_by := none, error := none },
         { st with tickets := (token, t) :: st.tickets,
                   counter := st.counter + 1 })

/-- Modelled from the spec (section 4.5, confirmation path): POST
/event/confirm redeems the ticket and on success feeds the recovered
envelope into the dispatcher; on redemption failure it returns the
corresponding error, never silently no-oping. -/
def handleConfirm (st : CoreState) (token : String) (now : Nat) :
    ConfirmResponse × CoreState :=
  match redeem st.tickets token now with
  | (Except.ok env, tickets1) =>
      let r := dispatch st.registry env
      ({ accepted := r.accepted, handled_by := r.handled_by,
         outputs := r.outputs, error := r.error },
       { st with tickets := tickets1,
                 dispatched := st.dispatched ++ invokedIntents r })
  | (Except.error err, tickets1) =>
      ({ accepted := false, handled_by := none, outputs := [],
         error := some (redemptionErrorName err) },
       { st with tickets := tickets1 })

/-- Response body of GET /ready (spec section 6). -/
structure ReadyResponse where
  ready : Bool
  deps : List (String × Bool)

/-- Modelled from the spec (section 4.6): readiness aggregates the health of
every declared dependency, probed afresh at request time (the current
health function is an input of each request, never cached). -/
def handleReady (health : String → Bool) (depNames : List String) :
    ReadyResponse :=
  let deps := depNames.map (fun n => (n, health n))
  { ready := deps.all (fun p => p.2), deps := deps }

/-- One-line summary of a policy rule, as exposed by introspection. -/
def ruleSummary (r : PolicyRule) : String :=
  match r.effect with
  | Effect.allow => "allow"
  | Effect.deny => "deny"
  | Effect.require_confirmation => "require_confirmation"

/-- Modelled from the spec (sections 4.6 and 6): GET /introspect returns a
snapshot body with the keys `services`, `skills` and `policy_rules`, and
mutates nothing: the state is returned unchanged. -/
def handleIntrospect (services : List String) (rules : List PolicyRule)
    (st : CoreState) : List (String × List String) × CoreState :=
  ([("services", services),
    ("skills", listIntents st.registry),
    ("policy_rules", rules.map ruleSummary)], st)

/-!
Embedding of `scripts/multimodal_probe.py`. The probe shells out to
`xrandr`, `pactl` and `ls /dev/video*`; those command outputs (already
stripped, as `_run` strips them) are inputs of the embedded parsers.
-/

/-- Python substring test `sub in s` for a non-empty separator. -/
def pyContains (s sub : String) : Bool := (s.splitOn sub).length > 1

/-- Python `str.split()` with no separator: split on spaces and drop empty
fields (the command outputs under study contain no other whitespace). -/
def pySplitWs (s : String) : List String := (s.splitOn " ").filter (fun w => w ≠ "")

/-- A display entry of the capability manifest (`detect_displays`). -/
structure Display where
  id : String
  name : String
  primary : Bool
  resolution : String
deriving DecidableEq, Repr

/-- An audio device entry of the capability manifest
(`detect_audio_devices`). -/
structure AudioDevice where
  id : String
  name : String
deriving DecidableEq, Repr

/-- Embeds `detect_displays` of `scripts/multimodal_probe.py`: keep the
lines of the xrandr query containing " connected"; the first word is the
display name, the first word containing both "x" and "+" its resolution,
defaulting to "unknown". -/
def detect_displays (out : String) : List Display :=
  (out.splitOn "\n").filterMap (fun line =>
    if pyContains line " connected" then
      let parts := pySplitWs line
      let name := parts.headD ""
      let res := parts.find? (fun p => pyContains p "x" && pyContains p "+")
      some { id := name, name := name,
             primary := pyContains line "primary",
             resolution := res.getD "unknown" }
    else none)

/-- Embeds `detect_audio_devices` of `scripts/multimodal_probe.py`: each
line of `pactl list short` with at least two tab-separated columns yields a
device with id and name from the first two columns. -/
def detect_audio_devices (out : String) : List AudioDevice :=
  (out.splitOn "\n").filterMap (fun line =>
    let cols := line.splitOn "\t"
    if cols.length ≥ 2 then
      some { id := cols.headD "", name := cols.getD 1 "" }
    else none)

/-- Embeds `detect_cameras` of `scripts/multimodal_probe.py`: each
whitespace-separated device path becomes a camera entry; an empty listing
yields no cameras. -/
def detect_cameras (out : String) : List AudioDevice :=
  if out ≠ "" then (pySplitWs out).map (fun dev => { id := dev, name := dev })
  else []

/-- The capability manifest emitted by the probe. -/
structure Manifest where
  version : String
  generated_at : String
  deployment_mode : String
  displays : List Display
  speakers : List AudioDevice
  microphones : List AudioDevice
  cameras : List AudioDevice
deriving DecidableEq, Repr

/-- Embeds `build_manifest` of `scripts/multimodal_probe.py`: detection
results fall back (Python `or` on an empty list) to a single hostname-derived
stub entry for displays, speakers and microphones, while the camera list is
taken as is; the current hostname, timestamp and the raw command outputs are
the inputs. -/
def build_manifest (hostname generated_at xrandr_out sinks_out sources_out
    cameras_out : String) : Manifest :=
  let displays :=
    match detect_displays xrandr_out with
    | [] => [{ id := "display-1", name := hostname ++ "-display",
               primary := true, resolution := "1920x1080" }]
    | ds => ds
  let speakers :=
    match detect_audio_devices sinks_out with
    | [] => [{ id := "speaker-1", name := hostname ++ "-speaker" }]
    | ds => ds
  let microphones :=
    match detect_audio_devices sources_out with
    | [] => [{ id := "mic-1", name := hostname ++ "-mic" }]
    | ds => ds
  let cameras := detect_cameras cameras_out
  { version := "1.0.0", generated_at := generated_at,
    deployment_mode := "host",
    displays := displays, speakers := speakers,
    microphones := microphones, cameras := cameras }

/-!
Embedding of `build_day_plan_workflow` from
`scripts/google_calendar_sync_example.py`.
-/

/-- A calendar event as consumed by `build_day_plan_workflow`; optional
fields model absent dictionary keys (and absent nested `start.dateTime`). -/
structure CalEvent where
  id : String
  summary : Option String
  start_dateTime : Option String
  end_dateTime : Option String
  location : Option String
deriving DecidableEq, Repr

/-- Python `x or d` on an optional string: `None` and the empty string are
falsy and give the default. -/
def pyOrStr (o : Option String) (d : String) : String :=
  match o with
  | some s => if s = "" then d else s
  | none => d

/-- Python slice `s[-8:-3]`: characters from `len - 8` (clamped at 0) up to
`len - 3` (clamped at 0). -/
def pySliceNeg8Neg3 (s : String) : String :=
  let n := s.length
  String.mk (((s.toList).drop (n - 8)).take ((n - 3) - (n - 8)))

/-- One entry of the `changes` list built by `build_day_plan_workflow`. -/
structure Change where
  op : String
  title : String
  position : Nat
deriving DecidableEq, Repr

/-- The `workflow.design` payload built by `build_day_plan_workflow`. -/
structure WorkflowPayload where
  person_id : String
  workflow_id : String
  project_id : String
  mode : String
  changes : List Change
deriving DecidableEq, Repr

/-- The step built for the event at index `idx`: the summary falls back to
"Event", and when a start time is present the title is prefixed with the
`[-8:-3]` slice of the start string and an en dash. -/
def stepOf (idx : Nat) (ev : CalEvent) : Change :=
  let summary := pyOrStr ev.summary "Event"
  let start := pyOrStr ev.start_dateTime ""
  let title :=
    if start ≠ "" then pySliceNeg8Neg3 start ++ " – " ++ summary else summary
  { op := "add_step", title := title, position := idx }

/-- The `enumerate(events)` loop body of `build_day_plan_workflow`. -/
def buildChanges (idx : Nat) : List CalEvent → List Change
  | [] => []
  | ev :: rest => stepOf idx ev :: buildChanges (idx + 1) rest

/-- Embeds `build_day_plan_workflow` of
`scripts/google_calendar_sync_example.py`: one `add_step` change per event,
positioned by its index, wrapped in a fixed design-mode payload. -/
def build_day_plan_workflow (person_id : String) (events : List CalEvent) :
    WorkflowPayload :=
  { person_id := person_id,
    workflow_id := "day-plan-example",
    project_id := "calendar-day-plan",
    mode := "design",
    changes := buildChanges 0 events }

/-!
Embedding of the HTTP helpers `post_json` and `get_json` shared by
`scripts/e2e_smoke.py`, `scripts/register_skills.py` and
`scripts/test_skills.py`.  The behaviour of the `requests` call is an input:
either the transport raises (carrying the exception text) or it yields a
response with an ok flag, a status code, a raw text body and an optional
decoded JSON value (`none` when `r.json()` raises).
-/

/-- Outcome of the underlying `requests.post` / `requests.get` call, over an
arbitrary type `J` of decoded JSON values. -/
inductive HttpOutcome (J : Type) where
  | err : String → HttpOutcome J
  | resp : Bool → Nat → String → Option J → HttpOutcome J

/-- The data component of the triple the helpers return: either the decoded
JSON body or raw text. -/
inductive RespData (J : Type) where
  | json : J → RespData J
  | text : String → RespData J

/-- Embeds `post_json` of `scripts/e2e_smoke.py` (lines 19 to 28): on a
transport exception return `(False, 0, str(e))`; otherwise return
`(r.ok, r.status_code, data)` where `data` is the decoded JSON body, or the
raw response text when JSON decoding raises. -/
def post_json {J : Type} : HttpOutcome J → Bool × Nat × RespData J
  | HttpOutcome.err e => (false, 0, RespData.text e)
  | HttpOutcome.resp ok st txt j =>
      let data :=
        match j with
        | some v => RespData.json v
        | none => RespData.text txt
      (ok, st, data)

/-- Embeds `get_json` of `scripts/register_skills.py` (lines 26 to 35); its
body is identical to `post_json` with `requests.get` in place of
`requests.post`. -/
def get_json {J : Type} : HttpOutcome J → Bool × Nat × RespData J
  | HttpOutcome.err e => (false, 0, RespData.text e)
  | HttpOutcome.resp ok st txt j =>
      let data :=
        match j with
        | some v => RespData.json v
        | none => RespData.text txt
      (ok, st, data)

/-!
Helper lemmas shared by the claim theorems.
-/

/-- A token rendered from the counter is never the empty string. -/
theorem tokenOf_ne_empty (n : Nat) : tokenOf n ≠ "" := by
  simp [tokenOf, String.ext_iff]

/-- The confidential gate matches exactly the envelopes whose safety
context carries the confidential classification. -/
theorem confidentialRule_matches (e : Envelope) (sc : SafetyContext)
    (hsc : e.safety_context = some sc)
    (hc : sc.data_classification = Classification.confidential) :
    confidentialRule.matchPred e = true := by
  simp [confidentialRule, hsc, hc]

/-- First-match evaluation: a rule table whose prefix does not match the
envelope and whose next entry is the confidential gate requires
confirmation for a matching envelope. -/
theorem evaluate_prefix_confidential (pre post : List PolicyRule)
    (e : Envelope)
    (hpre : ∀ r ∈ pre, r.matchPred e = false)
    (hc : confidentialRule.matchPred e = true) :
    evaluate (pre ++ confidentialRule :: post) e = Effect.require_confirmation := by
  induction pre with
  | nil =>
      simp [evaluate, List.find?, hc]
      rfl
  | cons r rest ih =>
      have hr : r.matchPred e = false := hpre r (List.mem_cons_self r rest)
      have hrest : ∀ q ∈ rest, q.matchPred e = false :=
        fun q hq => hpre q (List.mem_cons_of_mem r hq)
      simpa [evaluate, List.find?, hr] using ih hrest

/-- The default table evaluates to `allow` for envelopes without a
confidential classification. -/
theorem evaluate_default_allow (e : Envelope)
    (hclass : e.safety_context = none ∨
      ∃ sc, e.safety_context = some sc ∧
        (sc.data_classification = Classification.publicC ∨
         sc.data_classification = Classification.internalC)) :
    evaluate defaultRules e = Effect.allow := by
  have hm : confidentialRule.matchPred e = false := by
    rcases hclass with hnone | ⟨sc, hsc, hcl⟩
    · simp [confidentialRule, hnone]
    · rcases hcl with h1 | h1 <;> simp [confidentialRule, hsc, h1]
  simp [evaluate, defaultRules, List.find?, hm]

/-- C6: GET /ready reports ready = true exactly when every declared
dependency reports healthy; the health function is probed afresh on each
request (it is an input of the request, so the aggregate always reflects
the dependency health at request time), and the reported deps map lists
each declared dependency with its current health. -/
theorem ready_iff_all_deps_healthy (health : String → Bool)
    (depNames : List String) :
    ((handleReady health depNames).ready = true ↔
      ∀ n ∈ depNames, health n = true) ∧
    (handleReady health depNames).deps = depNames.map (fun n => (n, health n)) := by
  constructor
  · simp [handleReady, List.all_eq_true]
  · rfl

/-- Witness for C6 at a concrete dependency list and health snapshot. -/
theorem ready_iff_all_deps_healthy_witness :
    ((handleReady (fun _ => true) ["context", "policy"]).ready = true ↔
      ∀ n ∈ ["context", "policy"], (fun (_ : String) => true) n = true) ∧
    (handleReady (fun _ => true) ["context", "policy"]).deps =
      ["context", "policy"].map (fun n => (n, true)) :=
  ready_iff_all_deps_healthy (fun _ => true) ["context", "policy"]

/-- C7: GET /introspect returns a body whose keys are exactly `services`,
`skills` and `policy_rules`, and the core state (registry, ticket store and
the rest) is returned unchanged. -/
theorem introspect_keys_no_mutation (services : List String)
    (rules : List PolicyRule) (st : CoreState) :
    "services" ∈ (handleIntrospect services rules st).1.map Prod.fst ∧
    "skills" ∈ (handleIntrospect services rules st).1.map Prod.fst ∧
    "policy_rules" ∈ (handleIntrospect services rules st).1.map Prod.fst ∧
    (handleIntrospect services rules st).2 = st := by
  refine ⟨?_, ?_, ?_, rfl⟩ <;> simp [handleIntrospect]

/-- C8: the manifest built by the probe always has non-empty display,
speaker and microphone lists (a hostname-derived stub is substituted when
detection yields nothing), the camera list is exactly the detection result
(and is empty for an empty device listing), the version is always "1.0.0"
and the deployment mode always "host". -/
theorem build_manifest_spec (hostname generated_at xrandr_out sinks_out
    sources_out cameras_out : String) :
    (build_manifest hostname generated_at xrandr_out sinks_out sources_out
        cameras_out).displays ≠ [] ∧
    (build_manifest hostname generated_at xrandr_out sinks_out sources_out
        cameras_out).speakers ≠ [] ∧
    (build_manifest hostname generated_at xrandr_out sinks_out sources_out
        cameras_out).microphones ≠ [] ∧
    (build_manifest hostname generated_at xrandr_out sinks_out sources_out
        cameras_out).cameras = detect_cameras cameras_out ∧
    (build_manifest hostname generated_at xrandr_out sinks_out sources_out
        "").cameras = [] ∧
    (build_manifest hostname generated_at xrandr_out sinks_out sources_out
        cameras_out).version = "1.0.0" ∧
    (build_manifest hostname generated_at xrandr_out sinks_out sources_out
        cameras_out).deployment_mode = "host" := by
  refine ⟨?_, ?_, ?_, ?_, ?_, ?_, ?_⟩
  · cases h : detect_displays xrandr_out <;> simp [build_manifest, h]
  · cases h : detect_audio_devices sinks_out <;> simp [build_manifest, h]
  · cases h : detect_audio_devices sources_out <;> simp [build_manifest, h]
  · simp [build_manifest]
  · simp [build_manifest, detect_cameras]
  · simp [build_manifest]
  · simp [build_manifest]

/-- C10: the HTTP helpers of the smoke and registration scripts are total
functions of the transport outcome and always return a triple: a transport
exception yields `(false, 0, the exception text)`, a response whose body is
not JSON yields the raw response text, and a JSON body is returned decoded,
for `post_json` and `get_json` alike. -/
theorem http_helpers_total_shape :
    ∀ (J : Type) (e : String) (ok : Bool) (st : Nat) (txt : String) (v : J),
      @post_json J (HttpOutcome.err e) = (false, 0, RespData.text e) ∧
      @post_json J (HttpOutcome.resp ok st txt none) = (ok, st, RespData.text txt) ∧
      @post_json J (HttpOutcome.resp ok st txt (some v)) = (ok, st, RespData.json v) ∧
      @get_json J (HttpOutcome.err e) = (false, 0, RespData.text e) ∧
      @get_json J (HttpOutcome.resp ok st txt none) = (ok, st, RespData.text txt) ∧
      @get_json J (HttpOutcome.resp ok st txt (some v)) = (ok, st, RespData.json v) :=
  fun _ _ _ _ _ _ => ⟨rfl, rfl, rfl, rfl, rfl, rfl⟩

/-- Default change used with `List.getD` when indexing change lists. -/
def emptyChange : Change := { op := "", title := "", position := 0 }

/-- Default calendar event used with `List.getD`. -/
def emptyCalEvent : CalEvent :=
  { id := "", summary := none, start_dateTime := none, end_dateTime := none,
    location := none }

/-- The change loop produces one change per event. -/
theorem buildChanges_length (idx : Nat) (evs : List CalEvent) :
    (buildChanges idx evs).length = evs.length := by
  induction evs generalizing idx with
  | nil => rfl
  | cons ev rest ih => simp [buildChanges, ih]

/-- The change at index `i` is the step built for the event at index `i`,
offset by the starting index of the loop. -/
theorem buildChanges_getD (idx i : Nat) (evs : List CalEvent)
    (h : i < evs.length) :
    (buildChanges idx evs).getD i emptyChange =
      stepOf (idx + i) (evs.getD i emptyCalEvent) := by
  induction evs generalizing idx i with
  | nil => simp at h
  | cons ev rest ih =>
      cases i with
      | zero => simp [buildChanges]
      | succ n =>
          have hn : n < rest.length := by simpa using h
          have h2 := ih (idx + 1) n hn
          have he : idx + (n + 1) = (idx + 1) + n := by omega
          simp only [buildChanges, List.getD_cons_succ]
          rw [he]
          exact h2

/-- C9: for every event list, the day-plan payload is in design mode with
the fixed workflow and project ids, with exactly one `add_step` change per
event whose position is that event's index; an event without a summary gets
the fallback summary "Event" in its title (prefixed by the sliced start
time when one is present). -/
theorem build_day_plan_workflow_spec (pid : String) (events : List CalEvent) :
    (build_day_plan_workflow pid events).mode = "design" ∧
    (build_day_plan_workflow pid events).workflow_id = "day-plan-example" ∧
    (build_day_plan_workflow pid events).project_id = "calendar-day-plan" ∧
    (build_day_plan_workflow pid events).changes.length = events.length ∧
    ∀ i, i < events.length →
      ((build_day_plan_workflow pid events).changes.getD i emptyChange).op =
          "add_step" ∧
      ((build_day_plan_workflow pid events).changes.getD i
          emptyChange).position = i ∧
      ((events.getD i emptyCalEvent).summary = none →
        ((build_day_plan_workflow pid events).changes.getD i
            emptyChange).title =
          (if pyOrStr (events.getD i emptyCalEvent).start_dateTime "" ≠ ""
           then pySliceNeg8Neg3
                  (pyOrStr (events.getD i emptyCalEvent).start_dateTime "") ++
                " – " ++ "Event"
           else "Event")) := by
  refine ⟨rfl, rfl, rfl, buildChanges_length 0 events, ?_⟩
  intro i hi
  have hg : (build_day_plan_workflow pid events).changes.getD i emptyChange =
      stepOf i (events.getD i emptyCalEvent) := by
    simpa using buildChanges_getD 0 i events hi
  refine ⟨by rw [hg]; rfl, by rw [hg]; rfl, ?_⟩
  intro hs
  rw [hg]
  simp only [stepOf, pyOrStr, hs]

/-- Witness for C9 at a one-event list whose event has no summary and no
start time: the single change is an `add_step` at position 0 with the
fallback title "Event". -/
theorem build_day_plan_workflow_spec_witness :
    (0 < [emptyCalEvent].length) ∧
    ((build_day_plan_workflow "local-user" [emptyCalEvent]).changes.getD 0
        emptyChange).op = "add_step" ∧
    ((build_day_plan_workflow "local-user" [emptyCalEvent]).changes.getD 0
        emptyChange).position = 0 ∧
    ((build_day_plan_workflow "local-user" [emptyCalEvent]).changes.getD 0
        emptyChange).title = "Event" := by
  have h := (build_day_plan_workflow_spec "local-user" [emptyCalEvent]).2.2.2.2
      0 (by decide)
  exact ⟨by decide, h.1, h.2.1,
    (by simpa [emptyCalEvent, pyOrStr] using h.2.2 rfl)⟩

/-- Replacing the handler bound to an intent leaves the listed intents
unchanged. -/
theorem listIntents_replace (reg : Registry) (i : String) (h : Handler) :
    listIntents (reg.map (fun p => if p.1 = i then (p.1, h) else p)) =
      listIntents reg := by
  induction reg with
  | nil => rfl
  | cons p rest ih =>
      by_cases hp : p.1 = i <;>
        simpa [listIntents, hp] using congrArg (p.1 :: ·) ih

/-- The registration membership test agrees with the listed intents. -/
theorem any_key_iff_mem (reg : Registry) (i : String) :
    reg.any (fun p => p.1 = i) = true ↔ i ∈ listIntents reg := by
  constructor
  · intro h
    rcases List.any_eq_true.mp h with ⟨p, hp, hpi⟩
    simp only [decide_eq_true_eq] at hpi
    exact List.mem_map.mpr ⟨p, hp, hpi⟩
  · intro h
    rcases List.mem_map.mp h with ⟨p, hp, hpi⟩
    exact List.any_eq_true.mpr ⟨p, hp, by simp [hpi]⟩

/-- C5: registering the same intent twice reports success both times
(idempotent re-registration of the replace policy) and afterwards the
registry listing still holds each intent exactly once: the listed intents
stay duplicate-free and the re-registered intent occurs once. -/
theorem skills_idempotent_reregistration (reg : Registry) (i : String)
    (h1 h2 : Handler) (hnd : (listIntents reg).Nodup) :
    (registerSkill reg i h1).2 = true ∧
    (registerSkill (registerSkill reg i h1).1 i h2).2 = true ∧
    (listIntents (registerSkill (registerSkill reg i h1).1 i h2).1).Nodup ∧
    (listIntents (registerSkill (registerSkill reg i h1).1 i h2).1).count i
      = 1 := by
  by_cases hmem : reg.any (fun p => p.1 = i) = true
  · have hik : i ∈ listIntents reg := (any_key_iff_mem reg i).mp hmem
    have hr1 : registerSkill reg i h1 =
        (reg.map (fun p => if p.1 = i then (p.1, h1) else p), true) := by
      simp only [registerSkill, if_pos hmem]
    have hk1 : listIntents (reg.map (fun p => if p.1 = i then (p.1, h1) else p))
        = listIntents reg := listIntents_replace reg i h1
    have hmem1 : (reg.map (fun p => if p.1 = i then (p.1, h1) else p)).any
        (fun p => p.1 = i) = true :=
      (any_key_iff_mem _ i).mpr (hk1 ▸ hik)
    have hr2 : registerSkill
        (reg.map (fun p => if p.1 = i then (p.1, h1) else p)) i h2 =
        ((reg.map (fun p => if p.1 = i then (p.1, h1) else p)).map
          (fun p => if p.1 = i then (p.1, h2) else p), true) := by
      simp only [registerSkill, if_pos hmem1]
    have hk2 : listIntents
        ((reg.map (fun p => if p.1 = i then (p.1, h1) else p)).map
          (fun p => if p.1 = i then (p.1, h2) else p)) = listIntents reg := by
      rw [listIntents_replace]; exact hk1
    refine ⟨by rw [hr1], by rw [hr1, hr2], ?_, ?_⟩
    · rw [hr1, hr2]
      simp only [hk2]
      exact hnd
    · rw [hr1, hr2]
      simp only [hk2]
      exact List.count_eq_one_of_mem hnd hik
  · have hnik : i ∉ listIntents reg :=
      fun h => hmem ((any_key_iff_mem reg i).mpr h)
    have hr1 : registerSkill reg i h1 = (reg ++ [(i, h1)], true) := by
      simp only [registerSkill, if_neg hmem]
    have hk1 : listIntents (reg ++ [(i, h1)]) = listIntents reg ++ [i] := by
      simp [listIntents]
    have hmem1 : (reg ++ [(i, h1)]).any (fun p => p.1 = i) = true :=
      (any_key_iff_mem _ i).mpr (by rw [hk1]; simp)
    have hr2 : registerSkill (reg ++ [(i, h1)]) i h2 =
        ((reg ++ [(i, h1)]).map
          (fun p => if p.1 = i then (p.1, h2) else p), true) := by
      simp only [registerSkill, if_pos hmem1]
    have hk2 : listIntents ((reg ++ [(i, h1)]).map
        (fun p => if p.1 = i then (p.1, h2) else p)) =
        listIntents reg ++ [i] := by
      rw [listIntents_replace]; exact hk1
    refine ⟨by rw [hr1], by rw [hr1, hr2], ?_, ?_⟩
    · rw [hr1, hr2]
      simp only [hk2]
      exact List.nodup_append.mpr
        ⟨hnd, List.nodup_singleton i, by simpa [List.disjoint_singleton]⟩
    · rw [hr1, hr2]
      simp only [hk2]
      simp [List.count_append, List.count_eq_zero_of_not_mem hnik]

/-- Witness for C5: registering the intent `echo` twice into the one-entry
registry already holding `echo` succeeds both times and lists `echo` once. -/
theorem skills_idempotent_reregistration_witness :
    (listIntents [(("echo" : String),
        (fun e => { accepted := true, outputs := e.payload, error := none } :
          Handler))]).Nodup ∧
    (registerSkill [("echo",
        (fun e => { accepted := true, outputs := e.payload, error := none }))]
        "echo" (fun _ => { accepted := true, outputs := [], error := none })).2
      = true := by
  have hnd : (listIntents [(("echo" : String),
      (fun e => { accepted := true, outputs := e.payload, error := none } :
        Handler))]).Nodup := by
    simp [listIntents]
  refine ⟨hnd, ?_⟩
  exact (skills_idempotent_reregistration
    [("echo", (fun e => { accepted := true, outputs := e.payload, error := none }))]
    "echo" (fun _ => { accepted := true, outputs := [], error := none })
    (fun _ => { accepted := true, outputs := [], error := none }) hnd).1

/-- C2: any envelope classified confidential, evaluated against a rule
table in which no earlier rule matching it overrides the confidential gate,
is parked: POST /event answers accepted = false and require_confirmation =
true with the freshly minted non-empty confirmation token, and no skill
handler is invoked (the handler-invocation log is unchanged). -/
theorem confidential_requires_confirmation (pre post : List PolicyRule)
    (st : CoreState) (e : Envelope) (now ttl : Nat) (sc : SafetyContext)
    (hint : e.intent ≠ "")
    (hsc : e.safety_context = some sc)
    (hc : sc.data_classification = Classification.confidential)
    (hpre : ∀ r ∈ pre, r.matchPred e = false) :
    (handleEvent (pre ++ confidentialRule :: post) st e now ttl).1.accepted
        = false ∧
    (handleEvent (pre ++ confidentialRule :: post) st e now
        ttl).1.require_confirmation = true ∧
    (handleEvent (pre ++ confidentialRule :: post) st e now
        ttl).1.confirmation_token = some (tokenOf st.counter) ∧
    tokenOf st.counter ≠ "" ∧
    (handleEvent (pre ++ confidentialRule :: post) st e now ttl).2.dispatched
        = st.dispatched := by
  have heval := evaluate_prefix_confidential pre post e hpre
    (confidentialRule_matches e sc hsc hc)
  simp only [handleEvent, if_neg hint, heval]
  exact ⟨trivial, trivial, trivial, tokenOf_ne_empty st.counter, trivial⟩

/-- C4: an envelope with a registered, accepting handler and either no
safety context or a public or internal classification is dispatched
immediately under the default rules: the response is accepted with the
handler's outputs echoed and its intent as handled_by, no confirmation is
required, no token is returned and no ticket is minted. -/
theorem allow_path_immediate_dispatch (st : CoreState) (e : Envelope)
    (now ttl : Nat) (h : Handler)
    (hint : e.intent ≠ "")
    (hclass : e.safety_context = none ∨
      ∃ sc, e.safety_context = some sc ∧
        (sc.data_classification = Classification.publicC ∨
         sc.data_classification = Classification.internalC))
    (hreg : lookupHandler st.registry e.intent = some h)
    (hacc : (h e).accepted = true) :
    (handleEvent defaultRules st e now ttl).1.accepted = true ∧
    (handleEvent defaultRules st e now ttl).1.outputs = (h e).outputs ∧
    (handleEvent defaultRules st e now ttl).1.handled_by = some e.intent ∧
    (handleEvent defaultRules st e now ttl).1.require_confirmation = false ∧
    (handleEvent defaultRules st e now ttl).1.confirmation_token = none ∧
    (handleEvent defaultRules st e now ttl).2.tickets = st.tickets ∧
    (handleEvent defaultRules st e now ttl).2.counter = st.counter := by
  have heval := evaluate_default_allow e hclass
  have hdis : dispatch st.registry e =
      { accepted := (h e).accepted, outputs := (h e).outputs,
        handled_by := some e.intent, error := (h e).error } := by
    simp [dispatch, hreg]
  simp only [handleEvent, if_neg hint, heval, hdis, hacc]
  exact ⟨trivial, trivial, trivial, trivial, trivial, trivial, trivial⟩

/-- Parking an envelope: when validation passes and policy requires
confirmation, POST /event mints the next token, stores a pending ticket
bound to the envelope with a ttl-bounded expiry, and returns the token
without dispatching. -/
theorem handleEvent_require (rules : List PolicyRule) (reg : Registry)
    (tks : List (String × ConfirmationTicket)) (cnt : Nat)
    (log : List String) (e : Envelope) (now ttl : Nat)
    (hint : e.intent ≠ "")
    (heff : evaluate rules e = Effect.require_confirmation) :
    handleEvent rules ⟨reg, tks, cnt, log⟩ e now ttl =
      ({ accepted := false, require_confirmation := true,
         confirmation_token := some (tokenOf cnt), outputs := [],
         handled_by := none, error := none },
       ⟨reg, (tokenOf cnt,
          { envelope := e, issued_at := now, expires_at := now + ttl,
            state := TicketState.pending }) :: tks, cnt + 1, log⟩) := by
  simp only [handleEvent, if_neg hint, heff]

/-- Redeeming the freshest ticket while it is pending and unexpired
succeeds: the envelope is dispatched, the ticket transitions to redeemed
and the handler invocation is logged. -/
theorem handleConfirm_head_pending (reg : Registry)
    (tks : List (String × ConfirmationTicket)) (cnt : Nat)
    (log : List String) (tok : String) (e : Envelope) (ia xa now1 : Nat)
    (hlt : ¬ xa < now1) :
    handleConfirm ⟨reg, (tok,
        { envelope := e, issued_at := ia, expires_at := xa,
          state := TicketState.pending }) :: tks, cnt, log⟩ tok now1 =
      ({ accepted := (dispatch reg e).accepted,
         handled_by := (dispatch reg e).handled_by,
         outputs := (dispatch reg e).outputs,
         error := (dispatch reg e).error },
       ⟨reg, (tok,
          { envelope := e, issued_at := ia, expires_at := xa,
            state := TicketState.redeemed }) ::
          setTicketState tks tok TicketState.redeemed, cnt,
        log ++ invokedIntents (dispatch reg e)⟩) := by
  simp [handleConfirm, redeem, List.find?, hlt, setTicketState]

/-- Redeeming a token whose freshest ticket is already redeemed fails with
AlreadyRedeemed and leaves the state untouched. -/
theorem handleConfirm_head_redeemed (reg : Registry)
    (tks : List (String × ConfirmationTicket)) (cnt : Nat)
    (log : List String) (tok : String) (e : Envelope) (ia xa now2 : Nat) :
    handleConfirm ⟨reg, (tok,
        { envelope := e, issued_at := ia, expires_at := xa,
          state := TicketState.redeemed }) :: tks, cnt, log⟩ tok now2 =
      ({ accepted := false, handled_by := none, outputs := [],
         error := some "TicketAlreadyRedeemed" },
       ⟨reg, (tok,
          { envelope := e, issued_at := ia, expires_at := xa,
            state := TicketState.redeemed }) :: tks, cnt, log⟩) := by
  simp [handleConfirm, redeem, List.find?, redemptionErrorName]

/-- C1: a confirmation token minted by POST /event for an envelope whose
handler accepts is redeemed exactly once: the first POST /event/confirm
carrying it (within the ticket's validity window) answers accepted = true,
and every later call with the same token answers accepted = false with the
AlreadyRedeemed redemption error and leaves the entire core state —
including the handler invocation log — unchanged, so the envelope is never
dispatched a second time. -/
theorem exactly_once_redemption (rules : List PolicyRule) (st : CoreState)
    (e : Envelope) (now ttl now1 : Nat)
    (hint : e.intent ≠ "")
    (heff : evaluate rules e = Effect.require_confirmation)
    (hexp : now1 ≤ now + ttl)
    (hacc : (dispatch st.registry e).accepted = true) :
    (handleEvent rules st e now ttl).1.confirmation_token
        = some (tokenOf st.counter) ∧
    (handleConfirm (handleEvent rules st e now ttl).2 (tokenOf st.counter)
        now1).1.accepted = true ∧
    ∀ now2 : Nat,
      (handleConfirm (handleConfirm (handleEvent rules st e now ttl).2
          (tokenOf st.counter) now1).2 (tokenOf st.counter) now2).1.accepted
          = false ∧
      (handleConfirm (handleConfirm (handleEvent rules st e now ttl).2
          (tokenOf st.counter) now1).2 (tokenOf st.counter) now2).1.error
          = some "TicketAlreadyRedeemed" ∧
      (handleConfirm (handleConfirm (handleEvent rules st e now ttl).2
          (tokenOf st.counter) now1).2 (tokenOf st.counter) now2).2
          = (handleConfirm (handleEvent rules st e now ttl).2
              (tokenOf st.counter) now1).2 := by
  obtain ⟨reg, tks, cnt, log⟩ := st
  have hlt : ¬ now + ttl < now1 := Nat.not_lt.mpr hexp
  rw [handleEvent_require rules reg tks cnt log e now ttl hint heff]
  rw [handleConfirm_head_pending reg tks (cnt + 1) log (tokenOf cnt) e now
    (now + ttl) now1 hlt]
  refine ⟨rfl, hacc, ?_⟩
  intro now2
  rw [handleConfirm_head_redeemed reg
    (setTicketState tks (tokenOf cnt) TicketState.redeemed) (cnt + 1)
    (log ++ invokedIntents (dispatch reg e)) (tokenOf cnt) e now
    (now + ttl) now2]
  exact ⟨rfl, rfl, rfl⟩

/-- The confidential, cloud-forbidding safety context of the
confirmed-execution scenario. -/
def confidentialContext : SafetyContext :=
  { data_classification := Classification.confidential,
    allows_cloud := false }

/-- The confirmed-execution scenario envelope of the integration test:
intent summarize.document with a confidential, cloud-forbidding safety
context. -/
def scenarioEnvelope : Envelope :=
  { timestamp := "2025-10-25T19:22:04Z", source := "io-speech",
    intent := "summarize.document",
    payload := [("document_ref", "active_window"),
                ("summary_length", "short")],
    auth_scope := none,
    safety_context := some confidentialContext }

/-- C3: in the confirmed-execution scenario, POST /event with the
summarize.document envelope and confidential safety context is parked
behind a confirmation token, and POST /event/confirm with that token
(within the validity window, with an accepting handler registered for
summarize.document) answers accepted = true and handled_by =
summarize.document, the handler of the originally parked envelope's
intent. -/
theorem confirmed_execution_scenario (st : CoreState) (now ttl now1 : Nat)
    (h : Handler)
    (hreg : lookupHandler st.registry "summarize.document" = some h)
    (hacc : (h scenarioEnvelope).accepted = true)
    (hexp : now1 ≤ now + ttl) :
    (handleEvent defaultRules st scenarioEnvelope now ttl).1.accepted
        = false ∧
    (handleEvent defaultRules st scenarioEnvelope now
        ttl).1.require_confirmation = true ∧
    (handleEvent defaultRules st scenarioEnvelope now
        ttl).1.confirmation_token = some (tokenOf st.counter) ∧
    (handleConfirm (handleEvent defaultRules st scenarioEnvelope now ttl).2
        (tokenOf st.counter) now1).1.accepted = true ∧
    (handleConfirm (handleEvent defaultRules st scenarioEnvelope now ttl).2
        (tokenOf st.counter) now1).1.handled_by
        = some "summarize.document" := by
  obtain ⟨reg, tks, cnt, log⟩ := st
  have hint : scenarioEnvelope.intent ≠ "" := by decide
  have heff : evaluate defaultRules scenarioEnvelope
      = Effect.require_confirmation := by decide
  have hlt : ¬ now + ttl < now1 := Nat.not_lt.mpr hexp
  have hdis : dispatch reg scenarioEnvelope =
      { accepted := (h scenarioEnvelope).accepted,
        outputs := (h scenarioEnvelope).outputs,
        handled_by := some "summarize.document",
        error := (h scenarioEnvelope).error } := by
    simp only [dispatch, scenarioEnvelope] at hreg ⊢
    rw [hreg]
  rw [handleEvent_require defaultRules reg tks cnt log scenarioEnvelope now
    ttl hint heff]
  rw [handleConfirm_head_pending reg tks (cnt + 1) log (tokenOf cnt)
    scenarioEnvelope now (now + ttl) now1 hlt]
  rw [hdis]
  exact ⟨rfl, rfl, rfl, hacc, rfl⟩

/-- The accepting echo-style handler used by the concrete witnesses. -/
def okHandler : Handler :=
  fun e => { accepted := true, outputs := e.payload, error := none }

/-- A core state with the summarize.document skill registered, an empty
ticket store and counter zero, used by the concrete witnesses. -/
def scenarioState : CoreState :=
  { registry := [("summarize.document", okHandler)], tickets := [],
    counter := 0, dispatched := [] }

/-- Witness for C1 on the scenario fixtures: the hypotheses hold at the
concrete inputs and the first redemption of the minted token succeeds while
the second reports AlreadyRedeemed. -/
theorem exactly_once_redemption_witness :
    scenarioEnvelope.intent ≠ "" ∧
    evaluate defaultRules scenarioEnvelope = Effect.require_confirmation ∧
    (10 : Nat) ≤ 0 + 60 ∧
    (dispatch scenarioState.registry scenarioEnvelope).accepted = true ∧
    (handleConfirm (handleEvent defaultRules scenarioState scenarioEnvelope
        0 60).2 (tokenOf scenarioState.counter) 10).1.accepted = true ∧
    (handleConfirm (handleConfirm (handleEvent defaultRules scenarioState
        scenarioEnvelope 0 60).2 (tokenOf scenarioState.counter) 10).2
        (tokenOf scenarioState.counter) 500).1.error
      = some "TicketAlreadyRedeemed" :=
  ⟨by decide, by decide, by decide, by decide,
   (exactly_once_redemption defaultRules scenarioState scenarioEnvelope 0 60
     10 (by decide) (by decide) (by decide) (by decide)).2.1,
   ((exactly_once_redemption defaultRules scenarioState scenarioEnvelope 0 60
     10 (by decide) (by decide) (by decide) (by decide)).2.2 500).2.1⟩

/-- Witness for C2 on the scenario fixtures with an empty rule prefix and
suffix around the confidential gate. -/
theorem confidential_requires_confirmation_witness :
    scenarioEnvelope.intent ≠ "" ∧
    scenarioEnvelope.safety_context = some confidentialContext ∧
    (handleEvent ([] ++ confidentialRule :: []) scenarioState
        scenarioEnvelope 0 60).1.require_confirmation = true ∧
    (handleEvent ([] ++ confidentialRule :: []) scenarioState
        scenarioEnvelope 0 60).1.confirmation_token
      = some (tokenOf scenarioState.counter) ∧
    (handleEvent ([] ++ confidentialRule :: []) scenarioState
        scenarioEnvelope 0 60).2.dispatched = scenarioState.dispatched :=
  ⟨by decide, rfl,
   (confidential_requires_confirmation [] [] scenarioState scenarioEnvelope
     0 60 confidentialContext (by decide) rfl rfl
     (by intro r hr; cases hr)).2.1,
   (confidential_requires_confirmation [] [] scenarioState scenarioEnvelope
     0 60 confidentialContext (by decide) rfl rfl
     (by intro r hr; cases hr)).2.2.1,
   (confidential_requires_confirmation [] [] scenarioState scenarioEnvelope
     0 60 confidentialContext (by decide) rfl rfl
     (by intro r hr; cases hr)).2.2.2.2⟩

/-- Witness for C3 on the scenario fixtures. -/
theorem confirmed_execution_scenario_witness :
    lookupHandler scenarioState.registry "summarize.document"
        = some okHandler ∧
    (okHandler scenarioEnvelope).accepted = true ∧
    (10 : Nat) ≤ 0 + 60 ∧
    (handleConfirm (handleEvent defaultRules scenarioState scenarioEnvelope
        0 60).2 (tokenOf scenarioState.counter) 10).1.accepted = true ∧
    (handleConfirm (handleEvent defaultRules scenarioState scenarioEnvelope
        0 60).2 (tokenOf scenarioState.counter) 10).1.handled_by
      = some "summarize.document" :=
  ⟨rfl, rfl, by decide,
   (confirmed_execution_scenario scenarioState 0 60 10 okHandler rfl rfl
     (by decide)).2.2.2.1,
   (confirmed_execution_scenario scenarioState 0 60 10 okHandler rfl rfl
     (by decide)).2.2.2.2⟩

/-- The happy-path envelope of the integration test: summarize.document
with an internal classification, dispatched immediately. -/
def internalEnvelope : Envelope :=
  { timestamp := "2025-10-25T19:22:04Z", source := "io-speech",
    intent := "summarize.document",
    payload := [("document_ref", "active_window"),
                ("summary_length", "short")],
    auth_scope := some "person.local.explicit",
    safety_context := some { data_classification :=
      Classification.internalC, allows_cloud := false } }

/-- Witness for C4 on the happy-path fixtures: the internally classified
envelope is accepted immediately with the handler's outputs echoed and no
token minted. -/
theorem allow_path_immediate_dispatch_witness :
    internalEnvelope.intent ≠ "" ∧
    lookupHandler scenarioState.registry internalEnvelope.intent
        = some okHandler ∧
    (okHandler internalEnvelope).accepted = true ∧
    (handleEvent defaultRules scenarioState internalEnvelope 0 60).1.accepted
        = true ∧
    (handleEvent defaultRules scenarioState internalEnvelope 0
        60).1.outputs = (okHandler internalEnvelope).outputs ∧
    (handleEvent defaultRules scenarioState internalEnvelope 0
        60).1.confirmation_token = none ∧
    (handleEvent defaultRules scenarioState internalEnvelope 0 60).2.tickets
        = scenarioState.tickets :=
  ⟨by decide, rfl, rfl,
   (allow_path_immediate_dispatch scenarioState internalEnvelope 0 60
     okHandler (by decide)
     (Or.inr ⟨_, rfl, Or.inr rfl⟩) rfl rfl).1,
   (allow_path_immediate_dispatch scenarioState internalEnvelope 0 60
     okHandler (by decide)
     (Or.inr ⟨_, rfl, Or.inr rfl⟩) rfl rfl).2.1,
   (allow_path_immediate_dispatch scenarioState internalEnvelope 0 60
     okHandler (by decide)
     (Or.inr ⟨_, rfl, Or.inr rfl⟩) rfl rfl).2.2.2.2.1,
   (allow_path_immediate_dispatch scenarioState internalEnvelope 0 60
     okHandler (by decide)
     (Or.inr ⟨_, rfl, Or.inr rfl⟩) rfl rfl).2.2.2.2.2.1⟩
